import Mathlib

set_option maxRecDepth 100000

/-
Verification development for the xagent repository.

The repository holds two independent Python scripts:
  * src/create_chunlian.py (script 1): builds a fixed Word document with
    python-docx and saves it as 春联.docx;
  * src/fix_welcome.py (script 2): reads src/session.ts, replaces an exact
    banner text by a new banner text, writes the file back and prints a
    status message.

The scripts are shallowly embedded below.  File contents are `List Char`
(Python `str` is a sequence of code points, exactly `List Char`).  Python
`old in content` is the substring test `occursIn`; `content.replace(old,
new)` for a non-empty pattern is `pyReplace`, which replaces every
non-overlapping occurrence scanning left to right, as CPython does.
-/

/-- The horizontal rule of the banner frame: sixty box-drawing double
horizontal characters (code point 0x2550), written via `List.replicate`
rather than as a sixty-character literal. -/
def boxRule : String := String.mk (List.replicate 60 (Char.ofNat 0x2550))

/-- The variable `old` of src/fix_welcome.py (lines 5-14): the banner text
that the script searches for in src/session.ts. -/
def old : String :=
  "    console.log('');" ++ "\n" ++
  "    console.log(colors.gradient('╔" ++ boxRule ++ "╗'));" ++ "\n" ++
  "    console.log(colors.gradient('║') + ' '.repeat(56) + colors.gradient('║'));" ++ "\n" ++
  "    console.log(' '.repeat(12) + colors.gradient('🤖 XAGENT CLI') + ' '.repeat(37) + colors.gradient('║'));" ++ "\n" ++
  "    console.log(' '.repeat(14) + colors.textMuted('v1.0.0') + ' '.repeat(40) + colors.gradient('║'));" ++ "\n" ++
  "    console.log(colors.gradient('║') + ' '.repeat(56) + colors.gradient('║'));" ++ "\n" ++
  "    console.log(colors.gradient('╚" ++ boxRule ++ "╝'));" ++ "\n" ++
  "    console.log(colors.textMuted('  AI-powered command-line assistant'));" ++ "\n" ++
  "    console.log('');"

/-- The variable `new` of src/fix_welcome.py (lines 16-24): the replacement
banner text. -/
def new : String :=
  "    console.log('');" ++ "\n" ++
  "    console.log(colors.gradient('╔" ++ boxRule ++ "╗'));" ++ "\n" ++
  "    console.log(colors.gradient('║') + ' '.repeat(58) + colors.gradient('  ║'));" ++ "\n" ++
  "    console.log(' '.repeat(14) + '🤖 ' + colors.gradient('XAGENT CLI') + ' '.repeat(32) + colors.gradient('  ║'));" ++ "\n" ++
  "    console.log(' '.repeat(17) + colors.textMuted('v1.0.0') + ' '.repeat(36) + colors.gradient('  ║'));" ++ "\n" ++
  "    console.log(colors.gradient('║') + ' '.repeat(58) + colors.gradient('  ║'));" ++ "\n" ++
  "    console.log(colors.gradient('╚" ++ boxRule ++ "╝'));" ++ "\n" ++
  "    console.log(colors.textMuted('  AI-powered command-line assistant'));" ++ "\n" ++
  "    console.log('');"

/-- Whether `p` is an initial segment of `s` (character-for-character, as
Python compares code points). -/
def listIsPref : List Char → List Char → Bool
  | [], _ => true
  | _ :: _, [] => false
  | a :: as, b :: bs => a == b && listIsPref as bs

/-- Python's substring test `p in s` (line 26 of src/fix_welcome.py,
`if old in content`): `p` occurs in `s` as a contiguous run of characters. -/
def occursIn (p : List Char) : List Char → Bool
  | [] => p.isEmpty
  | c :: cs => listIsPref p (c :: cs) || occursIn p cs

/-- CPython `s.replace(p, r)` for a non-empty pattern `p` (line 27 of
src/fix_welcome.py, `content.replace(old, new)`): scan left to right, and
at each position where `p` starts, emit `r` and continue after the matched
characters (occurrences are non-overlapping); elsewhere keep the character.
The recursive call drops `p.length` characters of `c :: cs`, written
`cs.drop (p.length - 1)`.  The script's pattern `old` is non-empty, which
the guard `0 < p.length` records. -/
def pyReplace (p r : List Char) : List Char → List Char
  | [] => []
  | c :: cs =>
    if 0 < p.length ∧ listIsPref p (c :: cs) = true then
      r ++ pyReplace p r (cs.drop (p.length - 1))
    else
      c :: pyReplace p r cs
termination_by s => s.length
decreasing_by
  · simp only [List.length_drop, List.length_cons]
    omega
  · simp only [List.length_cons]
    omega

/-- The observable outcome of one run of src/fix_welcome.py after the file
was read: the content of src/session.ts when the run ends, whether the
script wrote the file (lines 28-29), and the messages it printed, in
order (lines 30 and 32). -/
structure RunResult where
  fileContent : List Char
  written : Bool
  printed : List String
deriving DecidableEq

/-- Lines 26-32 of src/fix_welcome.py, run on a file whose decoded content
is `content`: if `old` occurs, replace it (`content.replace(old, new)`),
write the result back and print `OK`; otherwise print `NOT FOUND` and
leave the file as it was. -/
def fixWelcomeRun (content : List Char) : RunResult :=
  if occursIn old.data content then
    { fileContent := pyReplace old.data new.data content
      written := true
      printed := ["OK"] }
  else
    { fileContent := content
      written := false
      printed := ["NOT FOUND"] }

/-- The exception `open('src/session.ts', 'r', ...)` on line 3 of
src/fix_welcome.py raises when the file does not exist; the script has no
try/except, so it propagates unhandled. -/
inductive PyExc
  | fileNotFound
deriving DecidableEq

/-- The whole script src/fix_welcome.py, run against an environment in
which src/session.ts either is absent (`none`) or holds the decoded text
`some content`: a missing file makes line 3 raise `FileNotFoundError`,
which nothing catches; otherwise the run proceeds as `fixWelcomeRun`. -/
def fixWelcome (file : Option (List Char)) : Except PyExc RunResult :=
  match file with
  | none => Except.error PyExc.fileNotFound
  | some content => Except.ok (fixWelcomeRun content)

/-- The spec's reading of the edit for claim C3 ("at most one occurrence of
the expected substring is replaced in a single run"): replace only the
first occurrence of `p` and keep the rest of the content verbatim.  This
definition follows the claim's words and is compared against `pyReplace`,
which follows the source. -/
def replaceFirstOnly (p r : List Char) : List Char → List Char
  | [] => []
  | c :: cs =>
    if 0 < p.length ∧ listIsPref p (c :: cs) = true then
      r ++ (c :: cs).drop p.length
    else
      c :: replaceFirstOnly p r cs

/-- Whether `p` starts at none of the first `n` positions of `s`. -/
def noMatchIn (p : List Char) : List Char → Nat → Bool
  | _, 0 => true
  | [], _ + 1 => true
  | c :: cs, n + 1 => !listIsPref p (c :: cs) && noMatchIn p cs n

/-- The paragraph alignments of python-docx's `WD_ALIGN_PARAGRAPH` that the
scripts can mention; src/create_chunlian.py only ever assigns `CENTER`. -/
inductive WdAlignParagraph
  | left
  | center
  | right
deriving DecidableEq

/-- The character formatting src/create_chunlian.py sets on a run: the
font size in points (`Pt`), the western font name (`font.name`), the color
(`font.color.rgb`, an RGB triple), boldness (`run.bold`, `none` when the
script leaves python-docx's default), and the east-Asian font set through
`rPr.rFonts` with `qn('w:eastAsia')`. -/
structure Font where
  sizePt : Option Nat
  name : Option String
  colorRgb : Option (Nat × Nat × Nat)
  bold : Option Bool
  eastAsia : Option String
deriving DecidableEq

/-- A run of text with its formatting (python-docx `Run`, created by
`add_run`). -/
structure DocxRun where
  text : String
  font : Font
deriving DecidableEq

/-- A paragraph (python-docx `Paragraph`, created by `add_paragraph`): its
alignment, `none` when never assigned, and its runs in order. -/
structure Paragraph where
  alignment : Option WdAlignParagraph
  runs : List DocxRun
deriving DecidableEq

/-- The section properties src/create_chunlian.py assigns (lines 10-18).
python-docx measures lengths in EMU and `Inches(x)` converts a literal such
as `11.69`; to keep the literals of the source exactly, each length is
recorded in hundredths of an inch, so `Inches(11.69)` is `1169`. -/
structure DocxSection where
  pageHeight : Nat
  pageWidth : Nat
  topMargin : Nat
  bottomMargin : Nat
  leftMargin : Nat
  rightMargin : Nat
deriving DecidableEq

/-- A python-docx `Document`: its section properties and its body
paragraphs in order.  `Document()` built from the default template starts
with no body paragraphs, and the script rewrites every field of
`doc.sections[0]`, so only the assigned values appear below. -/
structure Document where
  sectionProps : DocxSection
  paragraphs : List Paragraph
deriving DecidableEq

namespace chunlian

/-- Lines 10-18 of src/create_chunlian.py: A4 portrait page
(`Inches(11.69)` by `Inches(8.27)`) with 0.5 inch top/bottom and 0.75 inch
left/right margins, in hundredths of an inch. -/
def sectionProps : DocxSection :=
  { pageHeight := 1169
    pageWidth := 827
    topMargin := 50
    bottomMargin := 50
    leftMargin := 75
    rightMargin := 75 }

/-- A paragraph added by a bare `doc.add_paragraph()`: no alignment set, no
runs. -/
def emptyParagraph : Paragraph := { alignment := none, runs := [] }

/-- Lines 21-27: the centered title run, 28 pt 宋体, RGB (200, 0, 0), east
Asia font 宋体. -/
def title : Paragraph :=
  { alignment := some WdAlignParagraph.center
    runs := [{ text := "2025新春对联"
               font := { sizePt := some 28
                         name := some "宋体"
                         colorRgb := some (200, 0, 0)
                         bold := none
                         eastAsia := some "宋体" } }] }

/-- The shared formatting of the four couplet lines: 24 pt 楷体,
RGB (180, 0, 0), east Asia font 楷体. -/
def coupletFont : Font :=
  { sizePt := some 24
    name := some "楷体"
    colorRgb := some (180, 0, 0)
    bold := none
    eastAsia := some "楷体" }

/-- Lines 32-39: the first upper line. -/
def shanglian : Paragraph :=
  { alignment := some WdAlignParagraph.center
    runs := [{ text := "上联：春回大地千山秀", font := coupletFont }] }

/-- Lines 41-48: the first lower line. -/
def xialian : Paragraph :=
  { alignment := some WdAlignParagraph.center
    runs := [{ text := "下联：日暖神州万物荣", font := coupletFont }] }

/-- The shared formatting of the two horizontal scrolls: 26 pt 黑体,
RGB (220, 0, 0), bold, east Asia font 黑体. -/
def hengpiFont : Font :=
  { sizePt := some 26
    name := some "黑体"
    colorRgb := some (220, 0, 0)
    bold := some true
    eastAsia := some "黑体" }

/-- Lines 50-58: the first horizontal scroll. -/
def hengpi : Paragraph :=
  { alignment := some WdAlignParagraph.center
    runs := [{ text := "横批：万象更新", font := hengpiFont }] }

/-- Line 64: `doc.add_paragraph().add_run('=' * 50).font.size = Pt(12)`,
a separator of fifty equals signs at 12 pt with no other formatting and no
alignment assigned. -/
def separator : Paragraph :=
  { alignment := none
    runs := [{ text := String.mk (List.replicate 50 (Char.ofNat 61))
               font := { sizePt := some 12
                         name := none
                         colorRgb := none
                         bold := none
                         eastAsia := none } }] }

/-- Lines 66-73: the second upper line. -/
def shanglian2 : Paragraph :=
  { alignment := some WdAlignParagraph.center
    runs := [{ text := "上联：瑞雪迎春铺锦绣", font := coupletFont }] }

/-- Lines 75-82: the second lower line. -/
def xialian2 : Paragraph :=
  { alignment := some WdAlignParagraph.center
    runs := [{ text := "下联：红梅报岁展宏图", font := coupletFont }] }

/-- Lines 84-92: the second horizontal scroll. -/
def hengpi2 : Paragraph :=
  { alignment := some WdAlignParagraph.center
    runs := [{ text := "横批：新春大吉", font := hengpiFont }] }

end chunlian

/-- The document src/create_chunlian.py has built when it reaches
`doc.save` on line 95: the ten paragraphs in the order the script adds
them (title, blank line, first couplet, blank line, separator, second
couplet). -/
def chunlianDoc : Document :=
  { sectionProps := chunlian.sectionProps
    paragraphs :=
      [chunlian.title, chunlian.emptyParagraph, chunlian.shanglian,
       chunlian.xialian, chunlian.hengpi, chunlian.emptyParagraph,
       chunlian.separator, chunlian.shanglian2, chunlian.xialian2,
       chunlian.hengpi2] }

/-- The text a document's paragraph carries: its runs' texts in order. -/
def paragraphText (p : Paragraph) : List Char :=
  (p.runs.map fun r => r.text.data).flatten

/-- The content `doc.save` persists, modelled as the document's text: the
texts of all paragraphs in order.  python-docx is a library outside this
repository; its `save` is modelled as writing a file that carries the
document's content, so the saved file is non-empty whenever the document
holds text. -/
def serializeDoc (d : Document) : List Char :=
  (d.paragraphs.map paragraphText).flatten

/-- The process environment a script run could in principle observe:
command-line arguments, environment variables and standard input.
src/create_chunlian.py reads none of them. -/
structure Env where
  argv : List String
  vars : List (String × String)
  stdin : List String

/-- The observable outcome of one run of src/create_chunlian.py: the path
passed to `doc.save` (line 95), the document saved there, and the messages
printed (line 96). -/
structure Script1Result where
  savedPath : String
  doc : Document
  printed : List String
deriving DecidableEq

/-- One run of src/create_chunlian.py in environment `env`: the module
body mentions no argument, variable or input, builds `chunlianDoc`, saves
it as 春联.docx and prints the success message. -/
def create_chunlian (_env : Env) : Script1Result :=
  { savedPath := "春联.docx"
    doc := chunlianDoc
    printed := ["春联文档已成功生成：春联.docx"] }

/-- The files a finished run of src/create_chunlian.py has written in the
working directory: the saved document's content at its saved path, nothing
else. -/
def script1Files (env : Env) : String → Option (List Char) :=
  fun path =>
    if path = (create_chunlian env).savedPath then
      some (serializeDoc (create_chunlian env).doc)
    else
      none

theorem listIsPref_self_append (p t : List Char) : listIsPref p (p ++ t) = true := by
  induction p with
  | nil => rfl
  | cons a as ih => simp [listIsPref, ih]

theorem listIsPref_length_le {p s : List Char} (h : listIsPref p s = true) :
    p.length ≤ s.length := by
  induction p generalizing s with
  | nil => simp
  | cons a as ih =>
    cases s with
    | nil => simp [listIsPref] at h
    | cons b bs =>
      simp only [listIsPref, Bool.and_eq_true] at h
      simpa using ih h.2

theorem occursIn_middle (p x y : List Char) : occursIn p (x ++ (p ++ y)) = true := by
  induction x with
  | nil =>
    cases p with
    | nil =>
      cases y with
      | nil => rfl
      | cons c cs => rfl
    | cons a as =>
      have h := listIsPref_self_append (a :: as) y
      simp only [List.nil_append, List.cons_append, occursIn]
      simp only [List.cons_append] at h
      simp [h]
  | cons c cs ih => simp [occursIn, ih]

theorem occursIn_eq_false_of_lt {p s : List Char} (h : s.length < p.length) :
    occursIn p s = false := by
  induction s with
  | nil =>
    cases p with
    | nil => simp at h
    | cons a as => rfl
  | cons c cs ih =>
    have h1 : listIsPref p (c :: cs) = false := by
      cases hq : listIsPref p (c :: cs) with
      | false => rfl
      | true =>
        have := listIsPref_length_le hq
        omega
    have h2 : cs.length < p.length := by
      simp only [List.length_cons] at h
      omega
    simp [occursIn, h1, ih h2]

theorem pyReplace_nil (p r : List Char) : pyReplace p r [] = [] := by
  simp [pyReplace]

theorem pyReplace_cons_neg (p r : List Char) {c : Char} {cs : List Char}
    (h : listIsPref p (c :: cs) = false) :
    pyReplace p r (c :: cs) = c :: pyReplace p r cs := by
  rw [pyReplace]
  simp [h]

theorem pyReplace_front (p r t : List Char) (hp : 0 < p.length) :
    pyReplace p r (p ++ t) = r ++ pyReplace p r t := by
  cases p with
  | nil => simp at hp
  | cons a as =>
    have hpref : listIsPref (a :: as) (a :: (as ++ t)) = true := by
      have := listIsPref_self_append (a :: as) t
      simpa using this
    rw [List.cons_append, pyReplace]
    rw [if_pos ⟨hp, hpref⟩]
    simp

theorem pyReplace_self (p r : List Char) (hp : 0 < p.length) :
    pyReplace p r p = r := by
  have h := pyReplace_front p r [] hp
  rw [List.append_nil] at h
  rw [h, pyReplace_nil, List.append_nil]

theorem pyReplace_of_not_occurs (p r : List Char) {s : List Char}
    (h : occursIn p s = false) : pyReplace p r s = s := by
  induction s with
  | nil => exact pyReplace_nil p r
  | cons c cs ih =>
    simp only [occursIn, Bool.or_eq_false_iff] at h
    rw [pyReplace_cons_neg p r h.1, ih h.2]

theorem pyReplace_append (p r a b : List Char)
    (h : noMatchIn p (a ++ b) a.length = true) :
    pyReplace p r (a ++ b) = a ++ pyReplace p r b := by
  induction a with
  | nil => simp
  | cons c cs ih =>
    simp only [List.cons_append, List.length_cons, noMatchIn, Bool.and_eq_true,
      Bool.not_eq_true', List.append_eq] at h
    rw [List.cons_append, pyReplace_cons_neg p r h.1, ih h.2, List.cons_append]

theorem exists_pyReplace_decomp (p r : List Char) (hp : 0 < p.length)
    {s : List Char} (h : occursIn p s = true) :
    ∃ x y, pyReplace p r s = x ++ (r ++ y) := by
  induction s with
  | nil =>
    cases p with
    | nil => simp at hp
    | cons a as => simp [occursIn] at h
  | cons c cs ih =>
    cases hpref : listIsPref p (c :: cs) with
    | true =>
      refine ⟨[], pyReplace p r (cs.drop (p.length - 1)), ?_⟩
      rw [pyReplace, if_pos ⟨hp, hpref⟩]
      simp
    | false =>
      have h2 : occursIn p cs = true := by
        simp only [occursIn, hpref, Bool.false_or] at h
        exact h
      obtain ⟨x, y, hxy⟩ := ih h2
      exact ⟨c :: x, y, by rw [pyReplace_cons_neg p r hpref, hxy]; rfl⟩

theorem pyReplace_replicate (p r : List Char) (hp : 0 < p.length) :
    ∀ n : Nat, pyReplace p r (List.replicate n p).flatten = (List.replicate n r).flatten := by
  intro n
  induction n with
  | zero => simpa using pyReplace_nil p r
  | succ k ih =>
    rw [List.replicate_succ, List.flatten_cons, pyReplace_front p r _ hp, ih,
      List.replicate_succ, List.flatten_cons]

theorem replaceFirstOnly_front (p r t : List Char) (hp : 0 < p.length) :
    replaceFirstOnly p r (p ++ t) = r ++ t := by
  cases p with
  | nil => simp at hp
  | cons a as =>
    have hpref : listIsPref (a :: as) (a :: (as ++ t)) = true := by
      have := listIsPref_self_append (a :: as) t
      simpa using this
    rw [List.cons_append, replaceFirstOnly, if_pos ⟨hp, hpref⟩]
    simp

theorem fixWelcomeRun_pos {s : List Char} (h : occursIn old.data s = true) :
    fixWelcomeRun s =
      { fileContent := pyReplace old.data new.data s
        written := true
        printed := ["OK"] } := by
  simp [fixWelcomeRun, h]

theorem fixWelcomeRun_neg {s : List Char} (h : occursIn old.data s = false) :
    fixWelcomeRun s =
      { fileContent := s
        written := false
        printed := ["NOT FOUND"] } := by
  simp [fixWelcomeRun, h]

set_option maxRecDepth 40000 in
/-- C1: for every content of src/session.ts that contains the expected
banner substring, running src/fix_welcome.py writes the file back in place
with that substring replaced by the new banner text (the replacement text
occurs in the written content) and reports success with the printed status
message. -/
theorem fixWelcome_replaces_and_reports_ok (content : List Char)
    (h : occursIn old.data content = true) :
    fixWelcomeRun content =
      { fileContent := pyReplace old.data new.data content
        written := true
        printed := ["OK"] } ∧
    ∃ x y, (fixWelcomeRun content).fileContent = x ++ (new.data ++ y) := by
  have hp : 0 < old.data.length := by decide
  refine ⟨fixWelcomeRun_pos h, ?_⟩
  obtain ⟨x, y, hxy⟩ := exists_pyReplace_decomp old.data new.data hp h
  exact ⟨x, y, by rw [fixWelcomeRun_pos h, hxy]⟩

set_option maxRecDepth 40000 in
/-- C1 witness: the content consisting of the banner itself contains the
banner, is rewritten with the replacement text inside, and the run prints
the success message. -/
theorem fixWelcome_replaces_and_reports_ok_witness :
    occursIn old.data old.data = true ∧
    ∃ x y, (fixWelcomeRun old.data).fileContent = x ++ (new.data ++ y) := by
  have h : occursIn old.data old.data = true := by decide
  exact ⟨h, (fixWelcome_replaces_and_reports_ok old.data h).2⟩

/-- C2: for every content of src/session.ts that does not contain the
expected substring, the run leaves the file content unmodified, performs
no write, prints only the failure message and raises no exception (the
run's result is total and the error branch changes no state). -/
theorem fixWelcome_missing_pattern_no_change (content : List Char)
    (h : occursIn old.data content = false) :
    fixWelcomeRun content =
      { fileContent := content
        written := false
        printed := ["NOT FOUND"] } ∧
    fixWelcome (some content) =
      Except.ok
        { fileContent := content
          written := false
          printed := ["NOT FOUND"] } := by
  refine ⟨fixWelcomeRun_neg h, ?_⟩
  show Except.ok (fixWelcomeRun content) = _
  rw [fixWelcomeRun_neg h]

set_option maxRecDepth 40000 in
/-- C2 witness: the empty content lacks the banner, and the run leaves it
unchanged, writes nothing and prints the failure message. -/
theorem fixWelcome_missing_pattern_no_change_witness :
    occursIn old.data [] = false ∧
    fixWelcomeRun [] =
      { fileContent := []
        written := false
        printed := ["NOT FOUND"] } :=
  ⟨by decide, (fixWelcome_missing_pattern_no_change [] (by decide)).1⟩

set_option maxRecDepth 40000 in
/-- C3 counterexample: on a content holding two occurrences of the
expected substring, one run of src/fix_welcome.py replaces both (the
result is two copies of the replacement), so the result differs from
replacing at most one (the first) occurrence. -/
theorem fixWelcome_replaces_two_occurrences :
    (fixWelcomeRun (old.data ++ old.data)).fileContent = new.data ++ new.data ∧
    (fixWelcomeRun (old.data ++ old.data)).fileContent ≠
      replaceFirstOnly old.data new.data (old.data ++ old.data) := by
  have hp : 0 < old.data.length := by decide
  have hocc : occursIn old.data (old.data ++ old.data) = true := by
    have h := occursIn_middle old.data [] old.data
    rw [List.nil_append] at h
    exact h
  have hfile : (fixWelcomeRun (old.data ++ old.data)).fileContent
      = new.data ++ new.data := by
    rw [fixWelcomeRun_pos hocc]
    show pyReplace old.data new.data (old.data ++ old.data) = _
    rw [pyReplace_front old.data new.data old.data hp,
      pyReplace_self old.data new.data hp]
  refine ⟨hfile, ?_⟩
  rw [hfile, replaceFirstOnly_front old.data new.data old.data hp]
  intro heq
  exact (by decide : new.data ≠ old.data) (List.append_cancel_left heq)

/-- C3 amended: src/fix_welcome.py performs a literal (not regular
expression) replacement of every non-overlapping occurrence, left to
right: on a content made of n ≥ 1 copies of the expected substring, a
single run replaces all n of them. -/
theorem fixWelcome_replaces_all_occurrences (n : Nat) (hn : 0 < n) :
    (fixWelcomeRun (List.replicate n old.data).flatten).fileContent =
      (List.replicate n new.data).flatten := by
  have hp : 0 < old.data.length := by decide
  cases n with
  | zero => omega
  | succ k =>
    have hocc : occursIn old.data (List.replicate (k + 1) old.data).flatten = true := by
      rw [List.replicate_succ, List.flatten_cons]
      have h := occursIn_middle old.data [] (List.replicate k old.data).flatten
      rw [List.nil_append] at h
      exact h
    rw [fixWelcomeRun_pos hocc]
    exact pyReplace_replicate old.data new.data hp (k + 1)

set_option maxRecDepth 40000 in
/-- C3 amended witness: on two copies of the expected substring a single
run replaces both. -/
theorem fixWelcome_replaces_all_occurrences_witness :
    0 < 2 ∧
    (fixWelcomeRun (List.replicate 2 old.data).flatten).fileContent =
      (List.replicate 2 new.data).flatten :=
  ⟨by decide, fixWelcome_replaces_all_occurrences 2 (by decide)⟩

/-- C4 counterexample: in the environment where src/session.ts is absent,
the run of src/fix_welcome.py does not end in either printed status: line
3's `open` raises `FileNotFoundError`, which nothing catches, so the
script does fail in a way other than "pattern not found". -/
theorem fixWelcome_missing_file_raises :
    fixWelcome none = Except.error PyExc.fileNotFound ∧
    ¬∃ res : RunResult, fixWelcome none = Except.ok res := by
  refine ⟨rfl, ?_⟩
  rintro ⟨res, h⟩
  simp [fixWelcome] at h

/-- C4 amended: on every run in which src/session.ts exists and its text
is read, no exception is raised, and the run either performs the
replacement and reports success or leaves the file and reports that the
pattern was not found; a run against a missing file instead propagates an
unhandled `FileNotFoundError`. -/
theorem fixWelcome_ok_on_readable_file (content : List Char) :
    fixWelcome (some content) = Except.ok (fixWelcomeRun content) ∧
    ((fixWelcomeRun content).written = true ∧
        (fixWelcomeRun content).printed = ["OK"] ∨
      (fixWelcomeRun content).written = false ∧
        (fixWelcomeRun content).fileContent = content ∧
        (fixWelcomeRun content).printed = ["NOT FOUND"]) := by
  refine ⟨rfl, ?_⟩
  cases h : occursIn old.data content with
  | true => left; rw [fixWelcomeRun_pos h]; exact ⟨rfl, rfl⟩
  | false => right; rw [fixWelcomeRun_neg h]; exact ⟨rfl, rfl, rfl⟩

set_option maxRecDepth 40000 in
/-- C5 counterexample: the two printed status values are `OK` and
`NOT FOUND`, not `found` and `not found` as the claim states: on a content
holding the banner the script prints `OK`, and on a content lacking it the
script prints `NOT FOUND`. -/
theorem fixWelcome_status_literals_differ :
    (fixWelcomeRun old.data).printed = ["OK"] ∧ ("OK" : String) ≠ "found" ∧
    (fixWelcomeRun []).printed = ["NOT FOUND"] ∧
    ("NOT FOUND" : String) ≠ "not found" := by
  have h1 : occursIn old.data old.data = true := by decide
  have h0 : occursIn old.data [] = false := by decide
  refine ⟨?_, by decide, ?_, by decide⟩
  · rw [fixWelcomeRun_pos h1]
  · rw [fixWelcomeRun_neg h0]

/-- C5 amended: src/fix_welcome.py prints a binary status message whose
two possible values are `OK` and `NOT FOUND`: it prints `OK` exactly when
the substring is present and `NOT FOUND` exactly when it is absent. -/
theorem fixWelcome_status_ok_iff_found (content : List Char) :
    ((fixWelcomeRun content).printed = ["OK"] ↔
      occursIn old.data content = true) ∧
    ((fixWelcomeRun content).printed = ["NOT FOUND"] ↔
      occursIn old.data content = false) := by
  cases h : occursIn old.data content with
  | true => rw [fixWelcomeRun_pos h]; simp
  | false => rw [fixWelcomeRun_neg h]; simp

/-- C6: the edit applies if and only if the pattern matches exactly: the
run writes the file exactly when the expected text occurs
character-for-character in the content; any deviation means no write. -/
theorem fixWelcome_writes_iff_exact_match (content : List Char) :
    (fixWelcomeRun content).written = true ↔
      occursIn old.data content = true := by
  cases h : occursIn old.data content with
  | true => rw [fixWelcomeRun_pos h]
  | false => rw [fixWelcomeRun_neg h]

/-- C7: running src/create_chunlian.py produces the document file
春联.docx in the working directory, and the file exists and is non-empty
after the run completes. -/
theorem create_chunlian_saves_nonempty_document (env : Env) :
    ∃ content : List Char,
      script1Files env "春联.docx" = some content ∧ 0 < content.length := by
  refine ⟨serializeDoc chunlianDoc, ?_, by decide⟩
  simp [script1Files, create_chunlian]

/-- C8: src/create_chunlian.py is a closed, deterministic generator: it
consumes no arguments, environment variables or input, so any two runs
save the same single fixed document (same paragraph texts, order and
formatting attributes), write the same files and print the same message. -/
theorem create_chunlian_deterministic (env₁ env₂ : Env) :
    create_chunlian env₁ = create_chunlian env₂ ∧
    script1Files env₁ = script1Files env₂ ∧
    (create_chunlian env₁).doc = chunlianDoc :=
  ⟨rfl, rfl, rfl⟩

/-- C9 counterexample: the file transformation of src/fix_welcome.py is
not idempotent.  On the content `old ++ old.drop 20` the first run
succeeds (prints `OK`), yet its output still contains the search pattern
(the replacement text ends with the twenty characters that open the
pattern), so a second run changes the file again: transform (transform c)
differs from transform c at this input. -/
theorem fixWelcome_transform_not_idempotent :
    (fixWelcomeRun (old.data ++ old.data.drop 20)).printed = ["OK"] ∧
    (fixWelcomeRun
        (fixWelcomeRun (old.data ++ old.data.drop 20)).fileContent).fileContent ≠
      (fixWelcomeRun (old.data ++ old.data.drop 20)).fileContent := by
  have hp : 0 < old.data.length := by decide
  have hocc1 : occursIn old.data (old.data ++ old.data.drop 20) = true := by
    have h := occursIn_middle old.data [] (old.data.drop 20)
    rw [List.nil_append] at h
    exact h
  have hnone : occursIn old.data (old.data.drop 20) = false :=
    occursIn_eq_false_of_lt (by decide)
  have ht1 : (fixWelcomeRun (old.data ++ old.data.drop 20)).fileContent
      = new.data ++ old.data.drop 20 := by
    rw [fixWelcomeRun_pos hocc1]
    show pyReplace old.data new.data (old.data ++ old.data.drop 20) = _
    rw [pyReplace_front old.data new.data (old.data.drop 20) hp,
      pyReplace_of_not_occurs old.data new.data hnone]
  have hsplit : new.data ++ old.data.drop 20
      = new.data.take (new.data.length - 20) ++ old.data := by
    conv_lhs => rw [← List.take_append_drop (new.data.length - 20) new.data]
    rw [List.append_assoc]
    have h20 : new.data.drop (new.data.length - 20) = old.data.take 20 := by decide
    rw [h20, List.take_append_drop]
  have hocc2 : occursIn old.data (new.data ++ old.data.drop 20) = true := by
    rw [hsplit]
    have h := occursIn_middle old.data (new.data.take (new.data.length - 20)) []
    rw [List.append_nil] at h
    exact h
  have hnm : noMatchIn old.data
      (new.data.take (new.data.length - 20) ++ old.data)
      (new.data.take (new.data.length - 20)).length = true := by decide
  have ht2 : (fixWelcomeRun (new.data ++ old.data.drop 20)).fileContent
      = new.data.take (new.data.length - 20) ++ new.data := by
    rw [fixWelcomeRun_pos hocc2]
    show pyReplace old.data new.data (new.data ++ old.data.drop 20) = _
    rw [hsplit,
      pyReplace_append old.data new.data (new.data.take (new.data.length - 20))
        old.data hnm,
      pyReplace_self old.data new.data hp]
  refine ⟨by rw [fixWelcomeRun_pos hocc1], ?_⟩
  rw [ht1, ht2, hsplit]
  intro heq
  exact (by decide : new.data ≠ old.data) (List.append_cancel_left heq)

/-- C9 amended: the replacement text indeed does not contain the search
pattern, and whenever the output of a first run does not contain the
pattern, a second run takes the not-found branch and leaves the content
unchanged; but this premise fails for some contents (see the
counterexample), so idempotence does not hold for every content. -/
theorem fixWelcome_second_run_noop_when_pattern_absent :
    occursIn old.data new.data = false ∧
    ∀ content : List Char,
      occursIn old.data (fixWelcomeRun content).fileContent = false →
        fixWelcomeRun (fixWelcomeRun content).fileContent =
          { fileContent := (fixWelcomeRun content).fileContent
            written := false
            printed := ["NOT FOUND"] } := by
  refine ⟨by decide, ?_⟩
  intro content h
  exact fixWelcomeRun_neg h

/-- C9 amended witness: on the empty content the first run finds nothing,
its output lacks the pattern, and the second run takes the not-found
branch and changes nothing. -/
theorem fixWelcome_second_run_noop_when_pattern_absent_witness :
    occursIn old.data (fixWelcomeRun []).fileContent = false ∧
    fixWelcomeRun (fixWelcomeRun []).fileContent =
      { fileContent := (fixWelcomeRun []).fileContent
        written := false
        printed := ["NOT FOUND"] } :=
  ⟨by decide,
    fixWelcome_second_run_noop_when_pattern_absent.2 [] (by decide)⟩

/-- C10: on every run that reads the file, exactly one status message is
printed, and the file is written if and only if that message is the
success message `OK`; it is not written if and only if the message is the
failure message `NOT FOUND`. -/
theorem fixWelcome_single_status_message (content : List Char) :
    (fixWelcomeRun content).printed.length = 1 ∧
    ((fixWelcomeRun content).written = true ↔
      (fixWelcomeRun content).printed = ["OK"]) ∧
    ((fixWelcomeRun content).written = false ↔
      (fixWelcomeRun content).printed = ["NOT FOUND"]) := by
  cases h : occursIn old.data content with
  | true => rw [fixWelcomeRun_pos h]; simp
  | false => rw [fixWelcomeRun_neg h]; simp
